import Mathlib

/-!
Verification of the Lycée Charles de Gaulle backend (`main.py`, `schemas.py`):
a shallow embedding of the schema layer, the persistence adapter, the
serialization layer and the route handlers, together with theorems about the
properties the specification states.

The persistence adapter (`create_document`, `get_documents` from `database`)
is not part of the two source files; it is modelled from the specification
(§4.2): insertion appends a document with a fresh opaque string id to the named
collection, and queries return up to `limit` matching documents in
storage-default (insertion) order.
-/

namespace Lycee

/-- Schema `MenuItem` from `schemas.py`: `{dish, type}`, both required strings. -/
structure MenuItem where
  dish : String
  type : String
deriving DecidableEq, Repr, Inhabited

/-- Schema `CanteenMenuDay` from `schemas.py`: required `date` string and a
list of items defaulting to the empty list. -/
structure CanteenMenuDay where
  date : String
  items : List MenuItem := []
deriving DecidableEq, Repr, Inhabited

/-- `MenuCreate` in `main.py` subclasses `CanteenMenuDay` with no change. -/
abbrev MenuCreate := CanteenMenuDay

/-- A document stored in the document store: the storage-assigned `_id`
(modelled as the string the handler ultimately extracts) plus the payload
fields of a menu day. -/
structure StoredDoc where
  oid : String
  date : String
  items : List MenuItem
deriving DecidableEq, Repr, Inhabited

/-- Modelled from the spec: the document store. Documents are kept per named
collection in insertion order ("storage-default order" per §4.2/§9); `nextId`
generates fresh opaque identifiers. -/
structure Store where
  docs : List (String × StoredDoc)
  nextId : Nat
deriving DecidableEq, Repr, Inhabited

/-- Lexicographic `≤` on character lists: the document store's string
comparison (code-point order agrees with byte order for UTF-8). -/
def charListLe : List Char → List Char → Bool
  | [], _ => true
  | _ :: _, [] => false
  | a :: as, b :: bs =>
    if a < b then true
    else if b < a then false
    else charListLe as bs

/-- Lexicographic `<` on character lists. -/
def charListLt : List Char → List Char → Bool
  | [], [] => false
  | [], _ :: _ => true
  | _ :: _, [] => false
  | a :: as, b :: bs =>
    if a < b then true
    else if b < a then false
    else charListLt as bs

/-- Lexicographic `≤` on strings, the comparison the document store applies to
the `date` field in `$gte`/`$lte` filters. -/
def strLe (a b : String) : Bool := charListLe a.data b.data

/-- Lexicographic `<` on strings. -/
def strLt (a b : String) : Bool := charListLt a.data b.data

/-- The two filter shapes `main.py` passes to `get_documents`: an exact date
equality `{"date": d}` and an inclusive range `{"date": {"$gte": g, "$lte": l}}`. -/
inductive DateFilter where
  | eqDate (d : String)
  | range (gte lte : String)
deriving DecidableEq, Repr

/-- Whether a stored document satisfies a filter. Range comparison on the
`date` field is lexicographic string comparison, as in the document store. -/
def matchesFilter (f : DateFilter) (doc : StoredDoc) : Bool :=
  match f with
  | .eqDate d => doc.date == d
  | .range g l => strLe g doc.date && strLe doc.date l

/-- Modelled from the spec: `create_document(collection_name, payload) → id`
from the missing `database` module (§4.2): serializes the validated payload,
inserts it into the named collection, and returns the newly assigned opaque
identifier as a string. -/
def create_document (st : Store) (collection_name : String) (payload : CanteenMenuDay) :
    Store × String :=
  let oid := toString st.nextId
  ({ docs := st.docs ++ [(collection_name, { oid := oid, date := payload.date, items := payload.items })],
     nextId := st.nextId + 1 }, oid)

/-- Modelled from the spec: `get_documents(collection_name, filter, limit)`
from the missing `database` module (§4.2): returns up to `limit` matching
documents of the named collection in storage-default (insertion) order;
an empty sequence, not an error, when none match. -/
def get_documents (st : Store) (collection_name : String) (f : DateFilter) (limit : Nat) :
    List StoredDoc :=
  ((st.docs.filter (fun p => p.1 == collection_name && matchesFilter f p.2)).map Prod.snd).take limit

/-- Response model `MenuOut` from `main.py`: `{id, date, items}`. -/
structure MenuOut where
  id : String
  date : String
  items : List MenuItem
deriving DecidableEq, Repr, Inhabited

/-- `_serialize_menu` from `main.py`: converts a stored document into a
`MenuOut`, extracting `_id` as a string and rebuilding each item. -/
def serialize_menu (doc : StoredDoc) : MenuOut :=
  { id := doc.oid, date := doc.date, items := doc.items }

/-- The `{"success": True, "id": inserted_id}` response of `POST /api/menu`. -/
structure MenuCreateResult where
  success : Bool
  id : String
deriving DecidableEq, Repr, Inhabited

/-- Handler `create_menu_day` from `main.py`: persist the validated payload
into collection `"canteenmenuday"` and report the new id. -/
def create_menu_day (st : Store) (payload : MenuCreate) : Store × MenuCreateResult :=
  let r := create_document st "canteenmenuday" payload
  (r.1, { success := true, id := r.2 })

/-- An inbound JSON body for `POST /api/menu` before validation: each schema
field may be present or absent. -/
structure RawMenuPayload where
  date : Option String := none
  items : Option (List MenuItem) := none
deriving DecidableEq, Repr, Inhabited

/-- The pydantic validation boundary for `MenuCreate`: `date` is required
(`Field(...)`), `items` defaults to the empty list (`default_factory=list`).
Returns `none` exactly when validation rejects the body. -/
def validate_menu_create (raw : RawMenuPayload) : Option MenuCreate :=
  match raw.date with
  | none => none
  | some d => some { date := d, items := raw.items.getD [] }

/-- The full `POST /api/menu` route: FastAPI validates the body against the
`MenuCreate` schema before `create_menu_day` runs; a validation failure yields
a 422 error response and the handler body never executes. -/
def post_api_menu (st : Store) (raw : RawMenuPayload) :
    Store × Except String MenuCreateResult :=
  match validate_menu_create raw with
  | none => (st, Except.error "422 Unprocessable Entity: field required: date")
  | some payload =>
    let r := create_menu_day st payload
    (r.1, Except.ok r.2)

/-- Handler `get_today_menu` from `main.py`: exact-date query with limit 1 on
collection `"canteenmenuday"`; `today` is the current UTC date already
formatted as `YYYY-MM-DD` by `strftime`. Returns `None` when nothing matches. -/
def get_today_menu (st : Store) (today : String) : Option MenuOut :=
  match get_documents st "canteenmenuday" (.eqDate today) 1 with
  | [] => none
  | doc :: _ => some (serialize_menu doc)

/-- Handler `get_menu_range` from `main.py`: inclusive date-range query with
limit 100 on collection `"canteenmenuday"`, serializing every returned
document. -/
def get_menu_range (st : Store) (start «end» : String) : List MenuOut :=
  (get_documents st "canteenmenuday" (.range start «end») 100).map serialize_menu

/-!
## Dates and the simulated Pronote endpoints
-/

/-- A calendar date as Python's `datetime.date`: year, month, day. -/
structure Date where
  year : Nat
  month : Nat
  day : Nat
deriving DecidableEq, Repr, Inhabited

/-- Gregorian leap-year rule, as implemented by Python's `datetime`. -/
def isLeap (y : Nat) : Bool :=
  (y % 4 == 0 && y % 100 != 0) || (y % 400 == 0)

/-- Number of days in a month of a given year. -/
def daysInMonth (y m : Nat) : Nat :=
  if m == 2 then (if isLeap y then 29 else 28)
  else if m == 4 || m == 6 || m == 9 || m == 11 then 30
  else 31

/-- The successor calendar day, defined for dates strictly below `date.max`;
used only through `addOneDay`, which models the overflow Python raises at
`date.max`. -/
def nextDay (d : Date) : Date :=
  if d.day < daysInMonth d.year d.month then ⟨d.year, d.month, d.day + 1⟩
  else if d.month < 12 then ⟨d.year, d.month + 1, 1⟩
  else ⟨d.year + 1, 1, 1⟩

/-- Python's `date.max`: 9999-12-31, the largest representable date. -/
def maxDate : Date := ⟨9999, 12, 31⟩

/-- `cur + timedelta(days=1)` exactly as the program executes it: the next
calendar day, or the `OverflowError("date value out of range")` Python raises
when `cur` is `date.max`. -/
def addOneDay (d : Date) : Except String Date :=
  if d = maxDate then Except.error "date value out of range"
  else Except.ok (nextDay d)

/-- Python `date` comparison `a <= b` (lexicographic on year, month, day). -/
def dateLe (a b : Date) : Bool :=
  a.year < b.year ||
    (a.year == b.year && (a.month < b.month ||
      (a.month == b.month && a.day ≤ b.day)))

/-- Python `date` comparison `a < b` (lexicographic on year, month, day). -/
def dateLt (a b : Date) : Bool :=
  a.year < b.year ||
    (a.year == b.year && (a.month < b.month ||
      (a.month == b.month && a.day < b.day)))

/-- Numeric value of a digit character. -/
def c2n (c : Char) : Nat := c.toNat - 48

/-- The `%m` component of CPython's `_strptime` pattern, the regex
`1[0-2]|0[1-9]|[1-9]`: a two-digit month `10`–`12` or `01`–`09`, or a lenient
single digit `1`–`9` (leading zero optional). Returns the month value and the
unconsumed characters. The two-digit alternatives are tried first, as in the
regex; when one matches, the following character is a digit, so the
single-digit alternative could never extend to a full match and no
backtracking is observable. -/
def parseMonth : List Char → Option (Nat × List Char)
  | c1 :: c2 :: rest =>
    if c1 == '1' && (decide ('0' ≤ c2) && decide (c2 ≤ '2')) then
      some (10 + c2n c2, rest)
    else if c1 == '0' && (decide ('1' ≤ c2) && decide (c2 ≤ '9')) then
      some (c2n c2, rest)
    else if decide ('1' ≤ c1) && decide (c1 ≤ '9') then
      some (c2n c1, c2 :: rest)
    else none
  | [c1] =>
    if decide ('1' ≤ c1) && decide (c1 ≤ '9') then some (c2n c1, [])
    else none
  | [] => none

/-- The `%d` component of CPython's `_strptime` pattern, the regex
`3[01]|[12]\d|0[1-9]|[1-9]`: a two-digit day `30`–`31`, `10`–`29` or
`01`–`09`, or a lenient single digit `1`–`9`. Same determinism argument as
`parseMonth`. -/
def parseDay : List Char → Option (Nat × List Char)
  | c1 :: c2 :: rest =>
    if c1 == '3' && (decide ('0' ≤ c2) && decide (c2 ≤ '1')) then
      some (30 + c2n c2, rest)
    else if (decide ('1' ≤ c1) && decide (c1 ≤ '2')) && c2.isDigit then
      some (c2n c1 * 10 + c2n c2, rest)
    else if c1 == '0' && (decide ('1' ≤ c2) && decide (c2 ≤ '9')) then
      some (c2n c2, rest)
    else if decide ('1' ≤ c1) && decide (c1 ≤ '9') then
      some (c2n c1, c2 :: rest)
    else none
  | [c1] =>
    if decide ('1' ≤ c1) && decide (c1 ≤ '9') then some (c2n c1, [])
    else none
  | [] => none

/-- `datetime.strptime(s, "%Y-%m-%d").date()` as CPython implements it:
`%Y` is exactly four digits, the dashes are literal, `%m` and `%d` accept
their lenient one-or-two-digit regex forms (so `2024-1-5`, `2024-01-5` and
`2024-1-05` all parse), the whole string must be consumed, and the resulting
triple must be a real calendar date with year at least 1 (the `datetime.date`
constructor rejects year 0 and out-of-range days such as Feb 30). Returns
`none` where Python raises `ValueError`. -/
def parseDate (s : String) : Option Date :=
  match s.data with
  | y1 :: y2 :: y3 :: y4 :: sep1 :: rest =>
    if y1.isDigit && y2.isDigit && y3.isDigit && y4.isDigit && (sep1 == '-') then
      let y := ((c2n y1 * 10 + c2n y2) * 10 + c2n y3) * 10 + c2n y4
      match parseMonth rest with
      | none => none
      | some (m, rest2) =>
        match rest2 with
        | sep2 :: rest3 =>
          if sep2 == '-' then
            match parseDay rest3 with
            | none => none
            | some (d, rest4) =>
              match rest4 with
              | [] =>
                if 1 ≤ y && 1 ≤ m && m ≤ 12 && 1 ≤ d && d ≤ daysInMonth y m then
                  some ⟨y, m, d⟩
                else none
              | _ :: _ => none
          else none
        | [] => none
    else none
  | _ => none

/-- Two-digit zero-padded decimal rendering (`%m`, `%d`, `%H`, `%M`). -/
def pad2 (n : Nat) : String :=
  if n < 100 then String.mk [Nat.digitChar (n / 10), Nat.digitChar (n % 10)]
  else toString n

/-- Four-digit zero-padded decimal rendering (`%Y`). -/
def pad4 (n : Nat) : String :=
  if n < 10000 then
    String.mk [Nat.digitChar (n / 1000), Nat.digitChar (n / 100 % 10),
      Nat.digitChar (n / 10 % 10), Nat.digitChar (n % 10)]
  else toString n

/-- `d.strftime("%Y-%m-%d")`. -/
def formatDate (d : Date) : String :=
  pad4 d.year ++ "-" ++ pad2 d.month ++ "-" ++ pad2 d.day

/-- `t.strftime("%H:%M")` for a time given in minutes since midnight. -/
def hmToString (m : Nat) : String :=
  pad2 (m / 60 % 24) ++ ":" ++ pad2 (m % 60)

/-- Schema `PronoteCredentials` from `schemas.py`. -/
structure PronoteCredentials where
  url : String
  username : String
  password : String
deriving DecidableEq, Repr, Inhabited

/-- Schema `TimetableEntry` from `schemas.py`. -/
structure TimetableEntry where
  date : String
  start : String
  «end» : String
  subject : String
  room : Option String := none
  teacher : Option String := none
  group : Option String := none
deriving DecidableEq, Repr, Inhabited

/-- Schema `AbsenceRecord` from `schemas.py`. -/
structure AbsenceRecord where
  date : String
  start : String
  «end» : String
  justified : Bool := false
  reason : Option String := none
deriving DecidableEq, Repr, Inhabited

/-- `TimetableRequest` from `main.py`: credentials plus optional dates. -/
structure TimetableRequest extends PronoteCredentials where
  start : Option String := none
  «end» : Option String := none
deriving DecidableEq, Repr, Inhabited

/-- `AbsencesRequest` from `main.py`: identical shape. -/
structure AbsencesRequest extends PronoteCredentials where
  start : Option String := none
  «end» : Option String := none
deriving DecidableEq, Repr, Inhabited

/-- The `if req.start: start_date = datetime.strptime(req.start, "%Y-%m-%d").date()`
idiom: a missing or empty string (Python falsy) keeps the default; a non-empty
string must parse or the handler fails with the strptime error. -/
def resolveOptDate (dflt : Date) (o : Option String) : Except String Date :=
  match o with
  | none => Except.ok dflt
  | some s =>
    if s == "" then Except.ok dflt
    else
      match parseDate s with
      | some d => Except.ok d
      | none => Except.error ("time data " ++ s ++ " does not match format %Y-%m-%d")

/-- The fixed subject list of the simulated timetable. -/
def subjects : List String := ["Maths", "Français", "Physique", "Histoire", "Anglais"]

/-- The fixed room list of the simulated timetable. -/
def rooms : List String := ["B201", "A105", "Lab1", "C303", "L001"]

/-- One synthesized timetable entry: day `cur`, loop counter `i`. The slot is
`08:00` to `08:00 + 90min = 09:30`. -/
def mkTimetableEntry (cur : Date) (i : Nat) : TimetableEntry :=
  { date := formatDate cur,
    start := hmToString (8 * 60),
    «end» := hmToString (8 * 60 + 90),
    subject := subjects.getD (i % subjects.length) "",
    room := some (rooms.getD (i % rooms.length) ""),
    teacher := some "M./Mme X",
    group := some "2nde A" }

/-- The `while cur <= end_date and i < 10` loop of `get_pronote_timetable`.
Each iteration appends an entry and then executes `cur += timedelta(days=1)`,
which overflows when `cur` is `date.max`; the exception discards the collected
entries and propagates to the handler's `except` block (a 500). -/
def timetableLoop (endDate cur : Date) (i : Nat) : Except String (List TimetableEntry) :=
  if _h : dateLe cur endDate = true ∧ i < 10 then
    match addOneDay cur with
    | Except.error e => Except.error e
    | Except.ok nxt =>
      match timetableLoop endDate nxt (i + 1) with
      | Except.error e => Except.error e
      | Except.ok rest => Except.ok (mkTimetableEntry cur i :: rest)
  else Except.ok []
termination_by 10 - i
decreasing_by omega

/-- Handler `get_pronote_timetable` from `main.py`: `start_date` defaults to
today, `end_date` is initialized to the same value before `req.start` is
consulted (so its default is today as well), `end` is clamped up to `start`,
and up to 10 entries are generated, one per day. `today` is
`datetime.utcnow().date()`. -/
def get_pronote_timetable (today : Date) (req : TimetableRequest) :
    Except String (List TimetableEntry) :=
  match resolveOptDate today req.start with
  | Except.error e => Except.error e
  | Except.ok start_date =>
    match resolveOptDate today req.«end» with
    | Except.error e => Except.error e
    | Except.ok end_date0 =>
      let end_date := if dateLt end_date0 start_date then start_date else end_date0
      timetableLoop end_date start_date 0

/-- Handler `get_pronote_absences` from `main.py`: one fixed absence record
dated at `start` (default today); `req.end` is never read. -/
def get_pronote_absences (today : Date) (req : AbsencesRequest) :
    Except String (List AbsenceRecord) :=
  match resolveOptDate today req.start with
  | Except.error e => Except.error e
  | Except.ok start_date =>
    Except.ok [{ date := formatDate start_date, start := "10:00", «end» := "12:00",
                 justified := false, reason := none }]

/-- The `POST /api/pronote/timetable` route seen together with the document
store: the handler body never references the store, so the route leaves it
untouched and pairs it with the handler's response. -/
def pronote_timetable_route (st : Store) (today : Date) (req : TimetableRequest) :
    Store × Except String (List TimetableEntry) :=
  (st, get_pronote_timetable today req)

/-- The `POST /api/pronote/absences` route seen together with the document
store: the handler body never references the store. -/
def pronote_absences_route (st : Store) (today : Date) (req : AbsencesRequest) :
    Store × Except String (List AbsenceRecord) :=
  (st, get_pronote_absences today req)

/-!
## Helper lemmas
-/

theorem charListLe_refl (a : List Char) : charListLe a a = true := by
  induction a with
  | nil => rfl
  | cons x xs ih => simp [charListLe, lt_irrefl, ih]

theorem charListLe_antisymm :
    ∀ {a b : List Char}, charListLe a b = true → charListLe b a = true → a = b
  | [], [], _, _ => rfl
  | [], _ :: _, _, hba => by simp [charListLe] at hba
  | _ :: _, [], hab, _ => by simp [charListLe] at hab
  | x :: xs, y :: ys, hab, hba => by
    rcases lt_trichotomy x y with h | h | h
    · simp [charListLe, h, not_lt_of_gt h] at hba
    · subst h
      simp only [charListLe, lt_irrefl, if_neg (lt_irrefl x), if_false] at hab hba
      exact congrArg (x :: ·) (charListLe_antisymm hab hba)
    · simp [charListLe, h, not_lt_of_gt h] at hab

theorem charListLe_trans :
    ∀ {a b c : List Char}, charListLe a b = true → charListLe b c = true →
      charListLe a c = true
  | [], _, _, _, _ => rfl
  | _ :: _, [], _, hab, _ => by simp [charListLe] at hab
  | _ :: _, _ :: _, [], _, hbc => by simp [charListLe] at hbc
  | x :: xs, y :: ys, z :: zs, hab, hbc => by
    simp only [charListLe] at hab hbc ⊢
    rcases lt_trichotomy x y with hxy | hxy | hxy
    · rcases lt_trichotomy y z with hyz | hyz | hyz
      · simp [lt_trans hxy hyz]
      · subst hyz; simp [hxy]
      · simp [hyz, not_lt_of_gt hyz] at hbc
    · subst hxy
      rcases lt_trichotomy x z with hyz | hyz | hyz
      · simp [hyz]
      · subst hyz
        simp only [lt_irrefl, if_neg (lt_irrefl x), if_false] at hab hbc ⊢
        exact charListLe_trans hab hbc
      · simp [hyz, not_lt_of_gt hyz] at hbc
    · simp [hxy, not_lt_of_gt hxy] at hab

theorem charListLt_eq_not_le :
    ∀ (a b : List Char), charListLt a b = !charListLe b a
  | [], [] => rfl
  | [], _ :: _ => rfl
  | _ :: _, [] => rfl
  | x :: xs, y :: ys => by
    rcases lt_trichotomy x y with h | h | h
    · simp [charListLt, charListLe, h, not_lt_of_gt h]
    · subst h
      simp only [charListLt, charListLe, lt_irrefl, if_neg (lt_irrefl x), if_false]
      exact charListLt_eq_not_le xs ys
    · simp [charListLt, charListLe, h, not_lt_of_gt h]

theorem strLe_refl (a : String) : strLe a a = true := charListLe_refl a.data

theorem strLe_antisymm {a b : String} (hab : strLe a b = true) (hba : strLe b a = true) :
    a = b := by
  cases a; cases b
  exact congrArg String.mk (charListLe_antisymm hab hba)

theorem strLe_trans {a b c : String} (hab : strLe a b = true) (hbc : strLe b c = true) :
    strLe a c = true := charListLe_trans hab hbc

theorem strLt_eq_not_le (a b : String) : strLt a b = !strLe b a :=
  charListLt_eq_not_le a.data b.data

theorem head?_take_one {α : Type} (l : List α) : (l.take 1).head? = l.head? := by
  cases l <;> simp

theorem head?_filter_eq_find? {α : Type} (p : α → Bool) (l : List α) :
    (l.filter p).head? = l.find? p := by
  induction l with
  | nil => simp
  | cons a t ih =>
    by_cases h : p a
    · simp [List.filter_cons, h, List.find?_cons, ih]
    · simp only [List.filter_cons, List.find?_cons, h] at ih ⊢
      simp [h, ih]

theorem dateLe_refl (d : Date) : dateLe d d = true := by
  simp [dateLe]

theorem nextDay_not_le (d : Date) : dateLe (nextDay d) d = false := by
  rcases d with ⟨y, m, day⟩
  unfold nextDay
  split
  · simp [dateLe]
  · split <;> simp [dateLe]

theorem dateLe_dateLt_absurd {a b : Date} (h1 : dateLe a b = true)
    (h2 : dateLt b a = true) : False := by
  rcases a with ⟨ya, ma, da⟩
  rcases b with ⟨yb, mb, db⟩
  simp [dateLe, dateLt] at h1 h2
  omega

/-- One successful loop iteration: with the guard true and `cur` below
`date.max`, the result prefixes the current entry onto the rest. -/
theorem timetableLoop_step {endDate cur : Date} {i : Nat}
    (hcond : dateLe cur endDate = true ∧ i < 10) (hne : cur ≠ maxDate)
    {rest : List TimetableEntry}
    (hrest : timetableLoop endDate (nextDay cur) (i + 1) = Except.ok rest) :
    timetableLoop endDate cur i = Except.ok (mkTimetableEntry cur i :: rest) := by
  rw [timetableLoop, dif_pos hcond]
  have ha : addOneDay cur = Except.ok (nextDay cur) := by
    unfold addOneDay
    rw [if_neg hne]
  rw [ha]
  dsimp only
  rw [hrest]

/-- A failing increment: with the guard true at `date.max`, the iteration
raises the overflow error. -/
theorem timetableLoop_overflow {endDate : Date} {i : Nat}
    (hcond : dateLe maxDate endDate = true ∧ i < 10) :
    timetableLoop endDate maxDate i = Except.error "date value out of range" := by
  rw [timetableLoop, dif_pos hcond]
  rfl

/-- A stopped loop: guard false, empty result. -/
theorem timetableLoop_stop {endDate cur : Date} {i : Nat}
    (hcond : ¬(dateLe cur endDate = true ∧ i < 10)) :
    timetableLoop endDate cur i = Except.ok [] := by
  rw [timetableLoop, dif_neg hcond]

theorem timetableLoop_single (d : Date) (hd : d ≠ maxDate) :
    timetableLoop d d 0 = Except.ok [mkTimetableEntry d 0] := by
  refine timetableLoop_step ⟨dateLe_refl d, by omega⟩ hd (timetableLoop_stop ?_)
  rintro ⟨hc, -⟩
  rw [nextDay_not_le] at hc
  exact Bool.false_ne_true hc

/-- Full characterization of the `while cur <= end_date and i < 10` loop when
`end_date` lies strictly below `date.max` (so the day increment never
overflows): it succeeds with at most `10 - i` entries, the `j`-th entry is the
synthesized entry for the `j`-th day after `cur` with loop counter `i + j`, it
stops either because the counter hit 10 or because the next day is past
`end_date`, and every emitted entry's day is within the range. -/
theorem timetableLoop_spec (endDate : Date) (hend : dateLt endDate maxDate = true) :
    ∀ (cur : Date) (i : Nat), i ≤ 10 →
    ∃ L, timetableLoop endDate cur i = Except.ok L ∧
      L.length + i ≤ 10 ∧
      (∀ j, j < L.length → L.getD j default = mkTimetableEntry (nextDay^[j] cur) (i + j)) ∧
      (i + L.length = 10 ∨ dateLe (nextDay^[L.length] cur) endDate = false) ∧
      (∀ j, j < L.length → dateLe (nextDay^[j] cur) endDate = true) := by
  suffices H : ∀ (k : Nat) (cur : Date) (i : Nat), i ≤ 10 → 10 - i = k →
      ∃ L, timetableLoop endDate cur i = Except.ok L ∧
        L.length + i ≤ 10 ∧
        (∀ j, j < L.length → L.getD j default = mkTimetableEntry (nextDay^[j] cur) (i + j)) ∧
        (i + L.length = 10 ∨ dateLe (nextDay^[L.length] cur) endDate = false) ∧
        (∀ j, j < L.length → dateLe (nextDay^[j] cur) endDate = true) by
    intro cur i hi
    exact H (10 - i) cur i hi rfl
  intro k
  induction k with
  | zero =>
    intro cur i hi hk
    have hstop : timetableLoop endDate cur i = Except.ok [] :=
      timetableLoop_stop (by rintro ⟨-, hlt⟩; omega)
    refine ⟨[], hstop, by simpa using hi, by intro j hj; simp at hj, ?_,
      by intro j hj; simp at hj⟩
    refine Or.inl ?_
    simp only [List.length_nil]
    omega
  | succ k ih =>
    intro cur i hi hk
    by_cases hcond : dateLe cur endDate = true ∧ i < 10
    · have hne : cur ≠ maxDate := by
        intro heq
        subst heq
        exact dateLe_dateLt_absurd hcond.1 hend
      obtain ⟨L', hL', ih1, ih2, ih3, ih4⟩ := ih (nextDay cur) (i + 1) (by omega) (by omega)
      refine ⟨mkTimetableEntry cur i :: L', timetableLoop_step hcond hne hL', ?_, ?_, ?_, ?_⟩
      · simp only [List.length_cons]
        omega
      · intro j hj
        cases j with
        | zero =>
          simp [Function.iterate_zero_apply]
        | succ j =>
          simp only [List.length_cons] at hj
          have hj' : j < L'.length := by omega
          have := ih2 j hj'
          simp only [List.getD_cons_succ, Function.iterate_succ_apply]
          rw [this]
          congr 1
          omega
      · simp only [List.length_cons]
        rcases ih3 with h10 | hstop
        · exact Or.inl (by omega)
        · exact Or.inr (by rwa [Function.iterate_succ_apply])
      · intro j hj
        cases j with
        | zero =>
          simpa [Function.iterate_zero_apply] using hcond.1
        | succ j =>
          simp only [List.length_cons] at hj
          have hj' : j < L'.length := by omega
          simpa [Function.iterate_succ_apply] using ih4 j hj'
    · have hstop := timetableLoop_stop hcond
      refine ⟨[], hstop, by simpa using hi, by intro j hj; simp at hj, ?_,
        by intro j hj; simp at hj⟩
      by_cases hle : dateLe cur endDate = true
      · have : ¬ i < 10 := fun hlt => hcond ⟨hle, hlt⟩
        exact Or.inl (by simpa using (by omega : i = 10))
      · exact Or.inr (by simpa [Function.iterate_zero_apply] using Bool.not_eq_true _ ▸ hle)

theorem parseDate_not_empty {s : String} {d : Date} (h : parseDate s = some d) :
    (s == "") = false := by
  by_cases hs : s = ""
  · subst hs
    rw [show parseDate "" = none from rfl] at h
    exact Option.noConfusion h
  · simpa using hs

/-- A successfully parsing supplied date string always wins over the default. -/
theorem resolveOptDate_parses {dflt : Date} {s : String} {d : Date}
    (h : parseDate s = some d) :
    resolveOptDate dflt (some s) = Except.ok d := by
  unfold resolveOptDate
  dsimp only
  rw [parseDate_not_empty h]
  simp [h]

/-- C1 (counterexample): the round-trip claim as stated fails when the store
already holds 100 documents whose date equals the payload's date: the range
query truncates to the first 100 matches in insertion order, which excludes
the newly inserted day, so no returned day carries the inserted items. -/
theorem menu_roundtrip_unbounded_false :
    ¬ ∃ m ∈ get_menu_range
        (create_menu_day
          { docs := List.replicate 100 ("canteenmenuday", { oid := "", date := "d", items := [] }),
            nextId := 0 }
          { date := "d", items := [{ dish := "Steak", type := "plat" }] }).1 "d" "d",
      m.items = [{ dish := "Steak", type := "plat" }] := by decide

/-- C1 (amended): for every store holding fewer than 100 documents whose date
matches the payload's date `d`, `POST /api/menu` with `{date := d, items := xs}`
followed by `GET /api/menu?start=d&end=d` returns a serialized day whose
`items` equals `xs` in the same order (and whose `date` is `d`). -/
theorem menu_roundtrip_under_cap (st : Store) (d : String) (xs : List MenuItem)
    (hcap : (st.docs.filter (fun p => p.1 == "canteenmenuday" &&
        (strLe d p.2.date && strLe p.2.date d))).length < 100) :
    ∃ m ∈ get_menu_range (create_menu_day st { date := d, items := xs }).1 d d,
      m.items = xs ∧ m.date = d := by
  refine ⟨serialize_menu { oid := toString st.nextId, date := d, items := xs }, ?_, rfl, rfl⟩
  unfold get_menu_range get_documents create_menu_day create_document
  dsimp only
  rw [List.filter_append]
  have hsingle : List.filter (fun p => p.1 == "canteenmenuday" && matchesFilter (.range d d) p.2)
      [(("canteenmenuday" : String), ({ oid := toString st.nextId, date := d, items := xs } : StoredDoc))] =
      [(("canteenmenuday" : String), ({ oid := toString st.nextId, date := d, items := xs } : StoredDoc))] := by
    simp [List.filter_cons, matchesFilter, strLe_refl]
  rw [hsingle]
  rw [List.take_of_length_le]
  · rw [List.map_append, List.map_append]
    exact List.mem_append_right _ (by simp)
  · simp only [List.length_map, List.length_append, List.length_cons, List.length_nil]
    have : (st.docs.filter (fun p => p.1 == "canteenmenuday" && matchesFilter (.range d d) p.2)).length < 100 := hcap
    omega

/-- C1 witness: the amended round trip at the empty store. -/
theorem menu_roundtrip_under_cap_witness :
    ((Store.mk [] 0).docs.filter (fun p => p.1 == "canteenmenuday" &&
        (strLe "2024-01-15" p.2.date && strLe p.2.date "2024-01-15"))).length < 100 ∧
    ∃ m ∈ get_menu_range (create_menu_day (Store.mk [] 0)
        { date := "2024-01-15", items := [{ dish := "Steak", type := "plat" }] }).1
        "2024-01-15" "2024-01-15",
      m.items = [{ dish := "Steak", type := "plat" }] ∧ m.date = "2024-01-15" :=
  ⟨by decide, menu_roundtrip_under_cap (Store.mk [] 0) "2024-01-15"
      [{ dish := "Steak", type := "plat" }] (by decide)⟩

/-- C2: an inbound `POST /api/menu` body that fails `CanteenMenuDay` validation
(the required `date` field missing) is rejected at the boundary: the response
is the validation error, the handler body never runs, and the store — hence
the stored collection — is returned unchanged. -/
theorem post_api_menu_rejects_invalid (st : Store) (raw : RawMenuPayload)
    (h : validate_menu_create raw = none) :
    post_api_menu st raw =
      (st, Except.error "422 Unprocessable Entity: field required: date") := by
  unfold post_api_menu
  rw [h]

/-- C2 witness: a payload with items but no date is rejected and a non-empty
store is untouched. -/
theorem post_api_menu_rejects_invalid_witness :
    validate_menu_create { date := none, items := some [{ dish := "Steak", type := "plat" }] } = none ∧
    post_api_menu { docs := [("canteenmenuday", { oid := "a", date := "2024-01-01", items := [] })], nextId := 1 }
        { date := none, items := some [{ dish := "Steak", type := "plat" }] } =
      ({ docs := [("canteenmenuday", { oid := "a", date := "2024-01-01", items := [] })], nextId := 1 },
        Except.error "422 Unprocessable Entity: field required: date") :=
  ⟨rfl, post_api_menu_rejects_invalid _ _ rfl⟩

/-- C3: `GET /api/menu/today` returns exactly the serialization of the first
stored document of the `canteenmenuday` collection whose date equals the
current UTC date — so `none` (null, not an error) when no such document
exists, and the first match of the exact-date, limit-1 query otherwise. -/
theorem get_today_menu_first_match (st : Store) (today : String) :
    get_today_menu st today =
      (st.docs.find? (fun p => p.1 == "canteenmenuday" && p.2.date == today)).map
        (fun p => serialize_menu p.2) := by
  unfold get_today_menu get_documents
  have hmatch : ∀ l : List StoredDoc,
      (match l with
       | [] => (none : Option MenuOut)
       | doc :: _ => some (serialize_menu doc)) = l.head?.map serialize_menu := by
    intro l
    cases l <;> rfl
  rw [hmatch]
  rw [head?_take_one, List.head?_map, head?_filter_eq_find?]
  rw [Option.map_map]
  rfl

/-- C4: `GET /api/menu?start&end` returns at most 100 results; every result is
the serialization of a stored `canteenmenuday` document whose date lies
lexicographically in the inclusive range; when at most 100 documents match it
returns exactly the matching documents in storage order; and when `end < start`
the result is the empty sequence (the request is well-defined, not rejected). -/
theorem get_menu_range_spec (st : Store) (start «end» : String) :
    (get_menu_range st start «end»).length ≤ 100 ∧
    (∀ m ∈ get_menu_range st start «end», ∃ p ∈ st.docs,
      p.1 = "canteenmenuday" ∧ strLe start p.2.date = true ∧ strLe p.2.date «end» = true ∧
      m = serialize_menu p.2) ∧
    ((st.docs.filter (fun p => p.1 == "canteenmenuday" &&
        (strLe start p.2.date && strLe p.2.date «end»))).length ≤ 100 →
      get_menu_range st start «end» =
        (st.docs.filter (fun p => p.1 == "canteenmenuday" &&
          (strLe start p.2.date && strLe p.2.date «end»))).map (fun p => serialize_menu p.2)) ∧
    (strLt «end» start = true → get_menu_range st start «end» = []) := by
  refine ⟨?_, ?_, ?_, ?_⟩
  · simp only [get_menu_range, get_documents, List.length_map, List.length_take]
    omega
  · intro m hm
    simp only [get_menu_range, get_documents, List.mem_map] at hm
    obtain ⟨doc, hdoc, rfl⟩ := hm
    have hdoc' := List.mem_of_mem_take hdoc
    obtain ⟨p, hp, rfl⟩ := List.mem_map.1 hdoc'
    obtain ⟨hpmem, hq⟩ := List.mem_filter.1 hp
    simp only [matchesFilter, Bool.and_eq_true, beq_iff_eq] at hq
    exact ⟨p, hpmem, hq.1, hq.2.1, hq.2.2, rfl⟩
  · intro hlen
    simp only [get_menu_range, get_documents, matchesFilter]
    rw [List.take_of_length_le (by simpa using hlen)]
    rw [List.map_map]
    rfl
  · intro hlt
    simp only [get_menu_range, get_documents, matchesFilter]
    have hnil : st.docs.filter (fun p => p.1 == "canteenmenuday" &&
        (strLe start p.2.date && strLe p.2.date «end»)) = [] := by
      rw [List.filter_eq_nil_iff]
      rintro p hp hq
      rw [Bool.and_eq_true, Bool.and_eq_true] at hq
      have htrans := strLe_trans hq.2.1 hq.2.2
      rw [strLt_eq_not_le, htrans] at hlt
      simp at hlt
    rw [hnil]
    rfl

/-- C4 witness: a one-document store, queried with a range containing its date
and then with an inverted range. -/
theorem get_menu_range_spec_witness :
    get_menu_range { docs := [("canteenmenuday", { oid := "a", date := "2024-01-02", items := [] })], nextId := 1 }
        "2024-01-01" "2024-01-03" =
      [{ id := "a", date := "2024-01-02", items := [] }] ∧
    get_menu_range { docs := [("canteenmenuday", { oid := "a", date := "2024-01-02", items := [] })], nextId := 1 }
        "2024-01-03" "2024-01-01" = [] := by
  constructor
  · exact ((get_menu_range_spec
      { docs := [("canteenmenuday", { oid := "a", date := "2024-01-02", items := [] })], nextId := 1 }
      "2024-01-01" "2024-01-03").2.2.1 (by decide)).trans (by decide)
  · exact (get_menu_range_spec
      { docs := [("canteenmenuday", { oid := "a", date := "2024-01-02", items := [] })], nextId := 1 }
      "2024-01-03" "2024-01-01").2.2.2 (by decide)

/-- C5: `POST /api/pronote/timetable` for 2024-01-01 through 2024-01-03, with
any credentials and on any current date, returns exactly three entries dated
01-01, 01-02, 01-03, with subjects Maths, Français, Physique in that order and
the 08:00–09:30 slot on every entry. -/
theorem timetable_jan_first_to_third (today : Date) (u n p : String) :
    get_pronote_timetable today
        { url := u, username := n, password := p,
          start := some "2024-01-01", «end» := some "2024-01-03" } =
      Except.ok
        [{ date := "2024-01-01", start := "08:00", «end» := "09:30", subject := "Maths",
           room := some "B201", teacher := some "M./Mme X", group := some "2nde A" },
         { date := "2024-01-02", start := "08:00", «end» := "09:30", subject := "Français",
           room := some "A105", teacher := some "M./Mme X", group := some "2nde A" },
         { date := "2024-01-03", start := "08:00", «end» := "09:30", subject := "Physique",
           room := some "Lab1", teacher := some "M./Mme X", group := some "2nde A" }] := by
  have s4 := @timetableLoop_stop ⟨2024, 1, 3⟩ ⟨2024, 1, 4⟩ 3 (by decide)
  have s3 := @timetableLoop_step ⟨2024, 1, 3⟩ ⟨2024, 1, 3⟩ 2 (by decide) (by decide) [] s4
  have s2 := @timetableLoop_step ⟨2024, 1, 3⟩ ⟨2024, 1, 2⟩ 1 (by decide) (by decide) _ s3
  have s1 := @timetableLoop_step ⟨2024, 1, 3⟩ ⟨2024, 1, 1⟩ 0 (by decide) (by decide) _ s2
  unfold get_pronote_timetable
  dsimp only
  rw [resolveOptDate_parses (show parseDate "2024-01-01" = some ⟨2024, 1, 1⟩ by decide)]
  dsimp only
  rw [resolveOptDate_parses (show parseDate "2024-01-03" = some ⟨2024, 1, 3⟩ by decide)]
  dsimp only
  rw [show dateLt ⟨2024, 1, 3⟩ ⟨2024, 1, 1⟩ = false by decide]
  simp only [Bool.false_eq_true, if_false]
  rw [s1]
  exact congrArg Except.ok (by decide)

/-- C6 (counterexample): the claim fails at start 9999-12-31, end 9999-12-30:
both dates parse and end precedes start, but after emitting the clamped single
entry the loop executes `cur += timedelta(days=1)` at `date.max`, which raises
OverflowError, so the handler answers with the 500 error instead of the
one-entry response the claim promises. -/
theorem timetable_clamp_overflow_counterexample :
    parseDate "9999-12-31" = some ⟨9999, 12, 31⟩ ∧
    parseDate "9999-12-30" = some ⟨9999, 12, 30⟩ ∧
    dateLt ⟨9999, 12, 30⟩ ⟨9999, 12, 31⟩ = true ∧
    get_pronote_timetable ⟨2024, 1, 1⟩
        { url := "u", username := "n", password := "p",
          start := some "9999-12-31", «end» := some "9999-12-30" } =
      Except.error "date value out of range" ∧
    get_pronote_timetable ⟨2024, 1, 1⟩
        { url := "u", username := "n", password := "p",
          start := some "9999-12-31", «end» := some "9999-12-30" } ≠
      Except.ok [mkTimetableEntry ⟨9999, 12, 31⟩ 0] := by
  have hmain : get_pronote_timetable ⟨2024, 1, 1⟩
      { url := "u", username := "n", password := "p",
        start := some "9999-12-31", «end» := some "9999-12-30" } =
      Except.error "date value out of range" := by
    unfold get_pronote_timetable
    dsimp only
    rw [resolveOptDate_parses (show parseDate "9999-12-31" = some ⟨9999, 12, 31⟩ by decide)]
    dsimp only
    rw [resolveOptDate_parses (show parseDate "9999-12-30" = some ⟨9999, 12, 30⟩ by decide)]
    dsimp only
    rw [show dateLt ⟨9999, 12, 30⟩ ⟨9999, 12, 31⟩ = true by decide]
    simp only [if_true]
    exact timetableLoop_overflow ⟨by decide, by omega⟩
  refine ⟨by decide, by decide, by decide, hmain, ?_⟩
  rw [hmain]
  simp

/-- C6 (amended): when both dates parse, `end` is strictly before `start`, and
`start` is not `date.max` 9999-12-31 (where the day increment overflows into a
500), `end` is clamped to `start` and the response contains exactly one entry,
dated `start` (the zero-padded rendering of the parsed start date), in the
fixed 08:00–09:30 slot. -/
theorem timetable_clamped_single_entry (today : Date) (u n p : String)
    (s e : String) (ds de : Date)
    (hs : parseDate s = some ds) (he : parseDate e = some de)
    (hlt : dateLt de ds = true) (hmax : ds ≠ maxDate) :
    get_pronote_timetable today
        { url := u, username := n, password := p, start := some s, «end» := some e } =
      Except.ok [{ date := formatDate ds, start := "08:00", «end» := "09:30",
                   subject := "Maths", room := some "B201",
                   teacher := some "M./Mme X", group := some "2nde A" }] := by
  unfold get_pronote_timetable
  dsimp only
  rw [resolveOptDate_parses hs]
  dsimp only
  rw [resolveOptDate_parses he]
  dsimp only
  rw [hlt]
  simp only [if_true]
  rw [timetableLoop_single ds hmax]
  rfl

/-- C6 witness: end 2024-01-02 before start 2024-01-05 yields the single entry
dated 2024-01-05. -/
theorem timetable_clamped_single_entry_witness :
    parseDate "2024-01-05" = some ⟨2024, 1, 5⟩ ∧
    parseDate "2024-01-02" = some ⟨2024, 1, 2⟩ ∧
    dateLt ⟨2024, 1, 2⟩ ⟨2024, 1, 5⟩ = true ∧
    (⟨2024, 1, 5⟩ : Date) ≠ maxDate ∧
    get_pronote_timetable ⟨2024, 1, 1⟩
        { url := "u", username := "n", password := "p",
          start := some "2024-01-05", «end» := some "2024-01-02" } =
      Except.ok [{ date := "2024-01-05", start := "08:00", «end» := "09:30",
                   subject := "Maths", room := some "B201",
                   teacher := some "M./Mme X", group := some "2nde A" }] :=
  ⟨by decide, by decide, by decide, by decide,
    timetable_clamped_single_entry ⟨2024, 1, 1⟩ "u" "n" "p" "2024-01-05" "2024-01-02"
      ⟨2024, 1, 5⟩ ⟨2024, 1, 2⟩ (by decide) (by decide) (by decide) (by decide)⟩

/-- C7 (counterexample): the claim fails at start = end = 9999-12-31: the loop
appends the entry for `date.max` and then overflows on the day increment, so
the handler returns the 500 error rather than the one-entry-per-day list the
claim promises. -/
theorem timetable_overflow_counterexample :
    parseDate "9999-12-31" = some ⟨9999, 12, 31⟩ ∧
    get_pronote_timetable ⟨2024, 1, 1⟩
        { url := "u", username := "n", password := "p",
          start := some "9999-12-31", «end» := some "9999-12-31" } =
      Except.error "date value out of range" ∧
    get_pronote_timetable ⟨2024, 1, 1⟩
        { url := "u", username := "n", password := "p",
          start := some "9999-12-31", «end» := some "9999-12-31" } ≠
      Except.ok [mkTimetableEntry ⟨9999, 12, 31⟩ 0] := by
  have hmain : get_pronote_timetable ⟨2024, 1, 1⟩
      { url := "u", username := "n", password := "p",
        start := some "9999-12-31", «end» := some "9999-12-31" } =
      Except.error "date value out of range" := by
    unfold get_pronote_timetable
    dsimp only
    rw [resolveOptDate_parses (show parseDate "9999-12-31" = some ⟨9999, 12, 31⟩ by decide)]
    dsimp only
    rw [show dateLt ⟨9999, 12, 31⟩ ⟨9999, 12, 31⟩ = false by decide]
    simp only [Bool.false_eq_true, if_false]
    exact timetableLoop_overflow ⟨by decide, by omega⟩
  refine ⟨by decide, hmain, ?_⟩
  rw [hmain]
  simp

/-- C7 (amended): with both dates parsing and the clamped end strictly below
`date.max` 9999-12-31 (past which the day increment overflows into a 500), the
timetable response is a list with at most 10 entries, one per calendar day
starting at `start`; the `j`-th entry is for the `j`-th day, in the fixed
08:00–09:30 slot, with subject and room drawn from the fixed five-element
lists at index `j mod 5`; the list stops either at the 10-entry cap or exactly
when the next day passes the (clamped) end. -/
theorem timetable_day_per_entry (today : Date) (u n p : String) (s e : String) (ds de : Date)
    (hs : parseDate s = some ds) (he : parseDate e = some de)
    (hmax : dateLt (if dateLt de ds then ds else de) maxDate = true) :
    ∃ L, get_pronote_timetable today
        { url := u, username := n, password := p, start := some s, «end» := some e } =
          Except.ok L ∧
      L.length ≤ 10 ∧
      (∀ j, j < L.length → L.getD j default =
        { date := formatDate (nextDay^[j] ds), start := "08:00", «end» := "09:30",
          subject := subjects.getD (j % 5) "", room := some (rooms.getD (j % 5) ""),
          teacher := some "M./Mme X", group := some "2nde A" }) ∧
      (L.length = 10 ∨
        dateLe (nextDay^[L.length] ds) (if dateLt de ds then ds else de) = false) ∧
      (∀ j, j < L.length →
        dateLe (nextDay^[j] ds) (if dateLt de ds then ds else de) = true) := by
  obtain ⟨L, hL, h1, h2, h3, h4⟩ :=
    timetableLoop_spec (if dateLt de ds then ds else de) hmax ds 0 (by omega)
  refine ⟨L, ?_, by omega, ?_, ?_, h4⟩
  · unfold get_pronote_timetable
    dsimp only
    rw [resolveOptDate_parses hs]
    dsimp only
    rw [resolveOptDate_parses he]
    dsimp only
    exact hL
  · intro j hj
    have h := h2 j hj
    rw [Nat.zero_add] at h
    rw [h]
    rfl
  · rcases h3 with h10 | hstop
    · exact Or.inl (by omega)
    · exact Or.inr hstop

/-- C7 witness: the day-per-entry characterization at 2024-01-01 through
2024-01-02. -/
theorem timetable_day_per_entry_witness :
    parseDate "2024-01-01" = some ⟨2024, 1, 1⟩ ∧
    parseDate "2024-01-02" = some ⟨2024, 1, 2⟩ ∧
    dateLt (if dateLt ⟨2024, 1, 2⟩ ⟨2024, 1, 1⟩ then ⟨2024, 1, 1⟩ else ⟨2024, 1, 2⟩)
      maxDate = true ∧
    ∃ L, get_pronote_timetable ⟨2024, 3, 1⟩
        { url := "u", username := "n", password := "p",
          start := some "2024-01-01", «end» := some "2024-01-02" } =
          Except.ok L ∧
      L.length ≤ 10 ∧
      (∀ j, j < L.length → L.getD j default =
        { date := formatDate (nextDay^[j] ⟨2024, 1, 1⟩), start := "08:00", «end» := "09:30",
          subject := subjects.getD (j % 5) "", room := some (rooms.getD (j % 5) ""),
          teacher := some "M./Mme X", group := some "2nde A" }) ∧
      (L.length = 10 ∨
        dateLe (nextDay^[L.length] ⟨2024, 1, 1⟩)
          (if dateLt ⟨2024, 1, 2⟩ ⟨2024, 1, 1⟩ then ⟨2024, 1, 1⟩ else ⟨2024, 1, 2⟩) = false) ∧
      (∀ j, j < L.length →
        dateLe (nextDay^[j] ⟨2024, 1, 1⟩)
          (if dateLt ⟨2024, 1, 2⟩ ⟨2024, 1, 1⟩ then ⟨2024, 1, 1⟩ else ⟨2024, 1, 2⟩) = true) :=
  ⟨by decide, by decide, by decide,
    timetable_day_per_entry ⟨2024, 3, 1⟩ "u" "n" "p" "2024-01-01" "2024-01-02"
      ⟨2024, 1, 1⟩ ⟨2024, 1, 2⟩ (by decide) (by decide) (by decide)⟩

/-- C8 (counterexample): the claim fails at the strptime-lenient start
"2024-1-5": CPython's `%m`/`%d` patterns accept single digits, so the string
parses and the handler answers normally — but the returned record is dated the
zero-padded strftime rendering "2024-01-05", not the supplied string, so the
response is not `{date: s, ...}`. -/
theorem absences_lenient_date_counterexample :
    parseDate "2024-1-5" = some ⟨2024, 1, 5⟩ ∧
    get_pronote_absences ⟨2024, 3, 1⟩
        { url := "u", username := "n", password := "p",
          start := some "2024-1-5", «end» := none } =
      Except.ok [{ date := "2024-01-05", start := "10:00", «end» := "12:00",
                   justified := false, reason := none }] ∧
    ("2024-01-05" : String) ≠ "2024-1-5" := by
  refine ⟨by decide, ?_, by decide⟩
  unfold get_pronote_absences
  dsimp only
  rw [resolveOptDate_parses (show parseDate "2024-1-5" = some ⟨2024, 1, 5⟩ by decide)]
  dsimp only
  exact congrArg Except.ok (by decide)

/-- C8 (amended): `POST /api/pronote/absences` with a parsing `start` string
and any `end` value (universally quantified, hence without effect) returns
exactly one record: dated the zero-padded YYYY-MM-DD rendering of the parsed
start — equal to the supplied string whenever it is already zero-padded — from
10:00 to 12:00, unjustified, with no reason. -/
theorem absences_single_fixed_record (today : Date) (u n p : String)
    (s : String) (ds : Date) (hs : parseDate s = some ds) (e : Option String) :
    get_pronote_absences today
        { url := u, username := n, password := p, start := some s, «end» := e } =
      Except.ok [{ date := formatDate ds, start := "10:00", «end» := "12:00",
                   justified := false, reason := none }] := by
  unfold get_pronote_absences
  dsimp only
  rw [resolveOptDate_parses hs]

/-- C8 witness: start 2024-03-05 (already zero-padded) with an arbitrary end
value yields the record dated 2024-03-05. -/
theorem absences_single_fixed_record_witness :
    parseDate "2024-03-05" = some ⟨2024, 3, 5⟩ ∧
    get_pronote_absences ⟨2024, 1, 1⟩
        { url := "u", username := "n", password := "p",
          start := some "2024-03-05", «end» := some "2099-12-31" } =
      Except.ok [{ date := "2024-03-05", start := "10:00", «end» := "12:00",
                   justified := false, reason := none }] :=
  ⟨by decide,
    absences_single_fixed_record ⟨2024, 1, 1⟩ "u" "n" "p" "2024-03-05" ⟨2024, 3, 5⟩
      (by decide) (some "2099-12-31")⟩

/-- C9: the pronote routes neither read nor write the store, and their
responses are identical for requests that agree on `start`/`end` but carry
arbitrarily different credentials. -/
theorem pronote_credentials_noninterference (st : Store) (today : Date)
    (s e : Option String) (u1 n1 p1 u2 n2 p2 : String) :
    (pronote_timetable_route st today
        { url := u1, username := n1, password := p1, start := s, «end» := e }).1 = st ∧
    (pronote_timetable_route st today
        { url := u1, username := n1, password := p1, start := s, «end» := e }).2 =
      (pronote_timetable_route st today
        { url := u2, username := n2, password := p2, start := s, «end» := e }).2 ∧
    (pronote_absences_route st today
        { url := u1, username := n1, password := p1, start := s, «end» := e }).1 = st ∧
    (pronote_absences_route st today
        { url := u1, username := n1, password := p1, start := s, «end» := e }).2 =
      (pronote_absences_route st today
        { url := u2, username := n2, password := p2, start := s, «end» := e }).2 :=
  ⟨rfl, rfl, rfl, rfl⟩

end Lycee
